import Mathlib

/-!
Verification development for the autofill extension's core pipeline.

The definitions below are a shallow embedding of the TypeScript sources:
the FormScanner and QuestionMapper classes of formScanner.ts, the
autofillRunner and dropdownScanner modules, and the PatternStorage service.
Asynchronous storage and network effects are made explicit: the pattern
store is passed as a list value, the remote answer oracle is a function
parameter, and timestamps and generated ids are parameters.  Exceptional
exits are encoded with Except; code that catches an error and continues is
encoded with Option results.
-/

namespace Autofill

/-- Lowercasing on the character list (the toLowerCase method; ASCII, as
in every string this pipeline compares). -/
def jsLower (s : String) : String :=
  (s.toList.map Char.toLower).asString

/-- Whitespace trimming on both ends, on the character list (the trim
method). -/
def jsTrim (s : String) : String :=
  (((s.toList.dropWhile Char.isWhitespace).reverse.dropWhile
      Char.isWhitespace).reverse).asString

/-- The startsWith method, on character lists. -/
def jsStartsWith (s pre : String) : Bool :=
  pre.toList.isPrefixOf s.toList

/-- Substring occurrence on character lists. -/
def strIncludesL (a b : List Char) : Bool :=
  match a with
  | [] => b.isEmpty
  | _ :: rest => b.isPrefixOf a || strIncludesL rest b

/-- JavaScript-style substring test: b occurs somewhere inside a
(the includes method on strings). -/
def strIncludes (a b : String) : Bool :=
  strIncludesL a.toList b.toList

/-- JavaScript truthiness for an optional string: the empty string is
falsy, so code guarded by a bare string test sees it as absent. -/
def truthyStr : Option String → Option String
  | some s => if s = "" then none else some s
  | none => none

/-- Split a character list at every whitespace character, keeping the
empty pieces between consecutive separators. -/
def splitWsChars : List Char → List (List Char)
  | [] => [[]]
  | c :: rest =>
    let r := splitWsChars rest
    if c.isWhitespace then [] :: r
    else
      match r with
      | [] => [[c]]
      | t :: ts => (c :: t) :: ts

/-- Splitting on runs of whitespace, matching the JavaScript regex split
used by calculateSimilarity and by the word-level option matcher: a
leading or trailing whitespace run contributes an empty token, interior
runs act as single separators, and the empty string yields one empty
token. -/
def jsSplitWs (s : String) : List String :=
  match s.toList with
  | [] => [""]
  | c :: rest =>
    let chars := c :: rest
    let tokens := (splitWsChars chars).filter (fun t => t ≠ [])
    let lead := if c.isWhitespace then [[]] else []
    let trail :=
      if (chars.getLast (by simp)).isWhitespace then [([] : List Char)] else []
    (lead ++ tokens ++ trail).map List.asString

/-- First-some chaining, the shape of sequences of early returns in the
TypeScript methods. -/
def jsOr {α : Type} (a b : Option α) : Option α :=
  match a with
  | some x => some x
  | none => b

/- ## Canonical profile model (profileStorage / loadProfile result) -/

structure PersonalInfo where
  firstName : Option String := none
  lastName : Option String := none
  email : Option String := none
  phone : Option String := none
  country : Option String := none
  city : Option String := none
  state : Option String := none
  gender : Option String := none
  deriving DecidableEq

structure EEOInfo where
  gender : Option String := none
  hispanic : Option String := none
  veteran : Option String := none
  disability : Option String := none
  race : Option String := none
  deriving DecidableEq

structure WorkAuthInfo where
  driverLicense : Option Bool := none
  needsSponsorship : Option Bool := none
  authorizedUS : Option Bool := none
  deriving DecidableEq

structure ApplicationInfo where
  hasRelatives : Option Bool := none
  previouslyApplied : Option Bool := none
  deriving DecidableEq

structure SocialInfo where
  linkedin : Option String := none
  website : Option String := none
  deriving DecidableEq

structure DocumentInfo where
  base64 : Option String := none
  fileName : Option String := none
  deriving DecidableEq

structure DocumentsInfo where
  resume : Option DocumentInfo := none
  coverLetter : Option DocumentInfo := none
  deriving DecidableEq

/-- CanonicalProfile.  A missing sub-record in the TypeScript object and a
sub-record whose fields are all missing are observationally identical to
every optional-chained read the pipeline performs, so sub-records are
plain structures of optional fields. -/
structure Profile where
  personal : PersonalInfo := {}
  eeo : EEOInfo := {}
  workAuthorization : WorkAuthInfo := {}
  application : ApplicationInfo := {}
  social : SocialInfo := {}
  documents : DocumentsInfo := {}
  deriving DecidableEq

def emptyProfile : Profile := {}

/- ## Scanned question and resolved answer model -/

/-- ScannedQuestion, as produced by FormScanner.scan. -/
structure Question where
  questionText : String
  fieldType : String
  options : Option (List String) := none
  required : Bool := false
  selector : String := ""
  deriving DecidableEq

/-- Provenance tag of a resolved answer. -/
inductive Source where
  | canonical
  | learned
  | fuzzy
  | AI
  deriving DecidableEq

/-- Result of one of the three synchronous tiers inside tryMapping. -/
structure TierResult where
  answer : String
  source : Source
  confidence : ℚ
  fileName : Option String := none
  deriving DecidableEq

/-- MappedAnswer, the element type of the list processQuestions returns. -/
structure MappedAnswer where
  selector : String
  questionText : String
  answer : String
  source : Source
  confidence : ℚ
  required : Bool
  fieldType : String
  canonicalKey : Option String := none
  options : Option (List String) := none
  fileName : Option String := none
  isNewIntent : Bool := false
  suggestedIntentName : Option String := none
  deriving DecidableEq

/- ## QuestionMapper.matchInOptions and booleanToYesNo -/

/-- The per-option predicate of the partial-containment tier of
matchInOptions. -/
def partialMatchPred (valueLower : String) (opt : String) : Bool :=
  strIncludes (jsLower opt) valueLower || strIncludes valueLower (jsLower opt)

/-- The per-option predicate of the word-level tier of matchInOptions. -/
def wordMatchPred (valueLower : String) (valueWords : List String) (opt : String) : Bool :=
  let optLower := jsLower opt
  jsStartsWith optLower valueLower ||
    valueWords.any (fun w => jsStartsWith optLower w && w.length ≥ 3)

/-- The fixed gender synonym table of matchInOptions. -/
def synonymsFor (valueLower : String) : List String :=
  if valueLower = "male" then ["man"]
  else if valueLower = "female" then ["woman"]
  else if valueLower = "man" then ["male"]
  else if valueLower = "woman" then ["female"]
  else []

/-- The fixed country abbreviation table of matchInOptions. -/
def countryMapFor (valueLower : String) : Option String :=
  if valueLower = "usa" then some "united states"
  else if valueLower = "us" then some "united states"
  else if valueLower = "uk" then some "united kingdom"
  else if valueLower = "uae" then some "united arab emirates"
  else none

/-- QuestionMapper.matchInOptions: match a stored value to the best
option, trying exact, synonym, containment, word-level and country
abbreviation tiers in order; with no or empty options the value is
returned unchecked. -/
def matchInOptions (value : String) (options : Option (List String)) (confidence : ℚ) :
    Option TierResult :=
  match options with
  | none => some { answer := value, source := .canonical, confidence }
  | some opts =>
    if opts.length = 0 then some { answer := value, source := .canonical, confidence }
    else
      let valueLower := jsTrim (jsLower value)
      match opts.find? (fun opt => jsTrim (jsLower opt) = valueLower) with
      | some exactMatch => some { answer := exactMatch, source := .canonical, confidence }
      | none =>
        match (synonymsFor valueLower).findSome?
            (fun syn => opts.find? (fun opt => jsTrim (jsLower opt) = syn)) with
        | some synonymMatch => some { answer := synonymMatch, source := .canonical, confidence }
        | none =>
          match opts.find? (partialMatchPred valueLower) with
          | some partialMatch => some { answer := partialMatch, source := .canonical, confidence }
          | none =>
            let valueWords := jsSplitWs valueLower
            match opts.find? (wordMatchPred valueLower valueWords) with
            | some wordMatch => some { answer := wordMatch, source := .canonical, confidence }
            | none =>
              match countryMapFor valueLower with
              | some mappedName =>
                match opts.find? (fun opt => strIncludes (jsLower opt) mappedName) with
                | some countryMatch =>
                  some { answer := countryMatch, source := .canonical, confidence }
                | none => none
              | none => none

/-- QuestionMapper.booleanToYesNo: pick a yes-like or no-like option, with
the literal strings Yes and No as fallbacks (also when the option list is
non-empty but has no yes-like or no-like entry). -/
def booleanToYesNo (value : Bool) (options : Option (List String)) : String :=
  match options with
  | none => if value then "Yes" else "No"
  | some opts =>
    if opts.length = 0 then (if value then "Yes" else "No")
    else if value then
      match opts.find? (fun opt =>
          strIncludes (jsLower opt) "yes" || jsLower opt = "y" ||
          strIncludes (jsLower opt) "true" || jsLower opt = "i do") with
      | some yesOption => yesOption
      | none => "Yes"
    else
      match opts.find? (fun opt =>
          strIncludes (jsLower opt) "no" || jsLower opt = "n" ||
          strIncludes (jsLower opt) "false" || jsLower opt = "i do not" ||
          jsLower opt = "i don't" || strIncludes (jsLower opt) "prefer not") with
      | some noOption => noOption
      | none => "No"

/- ## QuestionMapper.tryCanonical -/

/-- One keyword branch of tryCanonical that returns a profile string
directly.  The outer layer distinguishes falling through to the next
branch (none) from an early return (some result). -/
def directBranch (cond : Bool) (v : Option String) : Option (Option TierResult) :=
  if cond then
    (truthyStr v).map (fun s => some { answer := s, source := .canonical, confidence := 1 })
  else none

/-- One keyword branch of tryCanonical that routes a profile string
through matchInOptions and early-returns its result even when it is
null. -/
def optionBranch (cond : Bool) (v : Option String) (opts : Option (List String)) :
    Option (Option TierResult) :=
  if cond then (truthyStr v).map (fun s => matchInOptions s opts 1) else none

/-- One keyword branch of tryCanonical that maps a boolean profile field
through booleanToYesNo; the branch fires whenever the field is present
(also when false). -/
def boolBranch (cond : Bool) (v : Option Bool) (opts : Option (List String)) :
    Option (Option TierResult) :=
  if cond then
    v.map (fun b =>
      some { answer := booleanToYesNo b opts, source := .canonical, confidence := 1 })
  else none

/-- The data-URL construction of the resume and cover-letter branches. -/
def fileDataUrl (base64Data : String) : String :=
  if jsStartsWith base64Data "data:" then base64Data
  else "data:application/pdf;base64," ++ base64Data

/-- The derived filename of the resume branch. -/
def resumeFileName (doc : DocumentInfo) (profile : Profile) : String :=
  match truthyStr doc.fileName with
  | some fn => fn
  | none =>
    match truthyStr profile.personal.firstName, truthyStr profile.personal.lastName with
    | some f, some l => f ++ "_" ++ l ++ "_Resume.pdf"
    | _, _ => "resume.pdf"

/-- A file-upload branch of tryCanonical (resume or cover letter): fires
on its keyword condition, and returns a data URL only when the stored
document has base64 content, falling through otherwise. -/
def fileBranch (cond : Bool) (doc : Option DocumentInfo) (name : DocumentInfo → String) :
    Option (Option TierResult) :=
  if cond then
    match doc with
    | some d =>
      match truthyStr d.base64 with
      | some base64Data =>
        some (some { answer := fileDataUrl base64Data, source := .canonical,
                     confidence := 1, fileName := some (name d) })
      | none => none
    | none => none
  else none

/-- QuestionMapper.tryCanonical: the fixed table of keyword predicates
over the lowercased question text, tried in source order with early
return.  Branches that go through matchInOptions return its result even
when it is null, ending the whole canonical tier. -/
def tryCanonical (q : Question) (profile : Profile) : Option TierResult :=
  let qLower := jsLower q.questionText
  (jsOr (directBranch (strIncludes qLower "first name" || qLower = "first name")
          profile.personal.firstName)
  (jsOr (directBranch (strIncludes qLower "last name" || qLower = "last name")
          profile.personal.lastName)
  (jsOr (directBranch (strIncludes qLower "email" || qLower = "email")
          profile.personal.email)
  (jsOr (directBranch (strIncludes qLower "phone" || qLower = "phone")
          profile.personal.phone)
  (jsOr (optionBranch (strIncludes qLower "country") profile.personal.country q.options)
  (jsOr (directBranch (strIncludes qLower "city") profile.personal.city)
  (jsOr (directBranch (strIncludes qLower "state" && !strIncludes qLower "united")
          profile.personal.state)
  (jsOr (directBranch (strIncludes qLower "linkedin" || strIncludes qLower "linked in" ||
            strIncludes qLower "linkedin profile" || strIncludes qLower "linkedin url" ||
            strIncludes qLower "professional profile" || qLower = "linkedin")
          profile.social.linkedin)
  (jsOr (directBranch (strIncludes qLower "website" || strIncludes qLower "portfolio" ||
            strIncludes qLower "personal website" || strIncludes qLower "online portfolio" ||
            qLower = "website")
          profile.social.website)
  (jsOr (fileBranch ((q.fieldType = "file" && strIncludes q.selector "resume") ||
            strIncludes qLower "resume" || strIncludes qLower "cv" ||
            (q.fieldType = "file" && qLower = "attach" && strIncludes q.selector "resume"))
          profile.documents.resume (fun d => resumeFileName d profile))
  (jsOr (fileBranch ((q.fieldType = "file" && strIncludes q.selector "cover") ||
            strIncludes qLower "cover letter" || strIncludes qLower "cover_letter" ||
            (q.fieldType = "file" && qLower = "attach" && strIncludes q.selector "cover"))
          profile.documents.coverLetter
          (fun d => (truthyStr d.fileName).getD "cover_letter.pdf"))
  (jsOr (boolBranch (strIncludes qLower "driver" && strIncludes qLower "license")
          profile.workAuthorization.driverLicense q.options)
  (jsOr (boolBranch (strIncludes qLower "sponsor" &&
            (strIncludes qLower "visa" || strIncludes qLower "work" ||
             strIncludes qLower "government"))
          profile.workAuthorization.needsSponsorship q.options)
  (jsOr (boolBranch ((strIncludes qLower "authorized" || strIncludes qLower "legally") &&
            strIncludes qLower "work" &&
            (strIncludes qLower "united states" || strIncludes qLower "u.s." ||
             strIncludes qLower "us" || strIncludes qLower "america"))
          profile.workAuthorization.authorizedUS q.options)
  (jsOr (boolBranch ((strIncludes qLower "relat" && strIncludes qLower "employee") ||
            (strIncludes qLower "friend" && strIncludes qLower "work"))
          profile.application.hasRelatives q.options)
  (jsOr (boolBranch (strIncludes qLower "previously" && strIncludes qLower "appl")
          profile.application.previouslyApplied q.options)
  (jsOr (optionBranch (strIncludes qLower "gender") profile.eeo.gender q.options)
  (jsOr (optionBranch (strIncludes qLower "hispanic" || strIncludes qLower "latino")
          profile.eeo.hispanic q.options)
  (jsOr (optionBranch (strIncludes qLower "veteran") profile.eeo.veteran q.options)
  (jsOr (optionBranch (strIncludes qLower "disability") profile.eeo.disability q.options)
        (optionBranch (strIncludes qLower "race") profile.eeo.race
          q.options))))))))))))))))))))).getD none

/-- QuestionMapper.tryFuzzy: the narrow fallback tier, currently only the
personal gender field against the options at confidence 0.9. -/
def tryFuzzy (q : Question) (profile : Profile) : Option TierResult :=
  match q.options with
  | none => none
  | some _ =>
    let qLower := jsLower q.questionText
    if strIncludes qLower "gender" then
      match truthyStr profile.personal.gender with
      | some g => matchInOptions g q.options (mkRat 9 10)
      | none => none
    else none

/-- QuestionMapper.fuzzyMatchOption: coerce a value to the closest option
via matchInOptions, keeping only the answer string. -/
def fuzzyMatchOption (value : String) (options : List String) : Option String :=
  (matchInOptions value (some options) (mkRat 9 10)).map (fun r => r.answer)

/- ## PatternStorage -/

/-- AnswerMapping: one canonical value with its accumulated variants and
the option vocabulary in play when it was learned. -/
structure AnswerMapping where
  canonicalValue : String
  variants : List String
  contextOptions : Option (List String) := none
  deriving DecidableEq

/-- LearnedPattern, the persistent unit of the pattern store. -/
structure LearnedPattern where
  id : String
  questionPattern : String
  intent : String
  canonicalKey : String
  answerMappings : Option (List AnswerMapping) := none
  fieldType : String
  confidence : ℚ
  usageCount : Nat
  lastUsed : String
  createdAt : String
  source : String
  synced : Option Bool := none
  deriving DecidableEq

/-- The pattern store state: the learnedPatterns list held in local
storage. -/
abbrev Store := List LearnedPattern

/-- The argument record of PatternStorage.addPattern (a LearnedPattern
without id, createdAt, usageCount and lastUsed). -/
structure NewPattern where
  questionPattern : String
  intent : String
  canonicalKey : String
  answerMappings : Option (List AnswerMapping) := none
  fieldType : String
  confidence : ℚ
  source : String
  deriving DecidableEq

/-- PatternStorage.calculateSimilarity: fraction of words of the first
string that occur in the second, over the larger word count. -/
def calculateSimilarity (str1 str2 : String) : ℚ :=
  let words1 := jsSplitWs str1
  let words2 := jsSplitWs str2
  ((words1.filter (fun w => words2.contains w)).length : ℚ) /
    (max words1.length words2.length : ℚ)

/-- PatternStorage.searchPatterns: first pattern whose stored question
text matches exactly (lowercased) or with at least 70 percent word
overlap. -/
def searchPatterns (patterns : Store) (questionText : String) : Option LearnedPattern :=
  let qLower := jsLower questionText
  patterns.find? (fun pattern =>
    jsLower pattern.questionPattern = qLower ||
      (mkRat 7 10) ≤ calculateSimilarity qLower (jsLower pattern.questionPattern))

/-- PatternStorage.incrementUsage: bump the usage count and refresh the
last-used timestamp of the first stored pattern with the given id,
leaving everything else unchanged. -/
def incrementUsage (patternId now : String) : Store → Store
  | [] => []
  | p :: rest =>
    if p.id = patternId then
      { p with usageCount := p.usageCount + 1, lastUsed := now } :: rest
    else p :: incrementUsage patternId now rest

/-- PatternStorage.findPattern: search the local patterns; on a hit,
increment that pattern's usage in storage and return the matched record
as read (the pre-increment copy, since storage reads return copies). -/
def findPattern (questionText now : String) (store : Store) :
    Option LearnedPattern × Store :=
  match searchPatterns store questionText with
  | some localMatch => (some localMatch, incrementUsage localMatch.id now store)
  | none => (none, store)

/-- The variant merge inside addPattern: push each incoming variant that
is not already present, in order. -/
def addVariants (m : AnswerMapping) (vs : List String) : AnswerMapping :=
  { m with variants := vs.foldl (fun acc v => if acc.contains v then acc else acc ++ [v]) m.variants }

/-- Merge one incoming mapping into the first existing mapping with the
same canonical value; none when no existing mapping has it. -/
def mergeOneMapping (nm : AnswerMapping) : List AnswerMapping → Option (List AnswerMapping)
  | [] => none
  | m :: rest =>
    if m.canonicalValue = nm.canonicalValue then some (addVariants m nm.variants :: rest)
    else (mergeOneMapping nm rest).map (fun r => m :: r)

/-- One step of the answer-mapping merge loop of addPattern: merge into a
matching existing mapping, or append the incoming mapping. -/
def mergeMappingsStep (acc : List AnswerMapping) (nm : AnswerMapping) : List AnswerMapping :=
  match mergeOneMapping nm acc with
  | some acc' => acc'
  | none => acc ++ [nm]

/-- The answer-mapping merge loop of addPattern over all incoming
mappings. -/
def mergeMappings (existing news : List AnswerMapping) : List AnswerMapping :=
  news.foldl mergeMappingsStep existing

/-- The in-place update addPattern applies to an existing pattern for the
same intent and (case-insensitive) question pattern: merge answer
mappings when both sides have them, refresh lastUsed, and mark for
re-sync. -/
def mergePattern (p : LearnedPattern) (np : NewPattern) (now : String) : LearnedPattern :=
  let p1 :=
    match np.answerMappings, p.answerMappings with
    | some nms, some ems => { p with answerMappings := some (mergeMappings ems nms) }
    | _, _ => p
  { p1 with lastUsed := now, synced := some false }

/-- The duplicate test of addPattern: same intent and same question
pattern up to case. -/
def isPairMatch (np : NewPattern) (p : LearnedPattern) : Bool :=
  p.intent = np.intent && jsLower p.questionPattern = jsLower np.questionPattern

/-- Merge the new pattern into the first matching stored pattern; none
when no stored pattern matches. -/
def mergeFirst (np : NewPattern) (now : String) : Store → Option Store
  | [] => none
  | p :: rest =>
    if isPairMatch np p then some (mergePattern p np now :: rest)
    else (mergeFirst np now rest).map (fun r => p :: r)

/-- The fresh record addPattern appends when no stored pattern matches. -/
def mkPattern (newId now : String) (np : NewPattern) : LearnedPattern :=
  { id := newId, questionPattern := np.questionPattern, intent := np.intent,
    canonicalKey := np.canonicalKey, answerMappings := np.answerMappings,
    fieldType := np.fieldType, confidence := np.confidence, usageCount := 0,
    lastUsed := now, createdAt := now, source := np.source, synced := some false }

/-- PatternStorage.addPattern: merge into the existing pattern for the
(intent, questionPattern) pair when one exists, otherwise append a fresh
record with a generated id. -/
def addPattern (newId now : String) (np : NewPattern) (store : Store) : Store :=
  match mergeFirst np now store with
  | some merged => merged
  | none => store ++ [mkPattern newId now np]

/- ## QuestionMapper: profile lookup and the learned tier -/

/-- Booleans read from the profile render as Yes or No. -/
def boolValue : Option Bool → Option String
  | some b => some (if b then "Yes" else "No")
  | none => none

/-- QuestionMapper.getValueFromProfile: walk the dot-separated intent
path over the profile object.  The dynamic walk of the source resolves
exactly the paths that exist on the typed profile; any other path (for
example the workAuth prefix used by detectIntent, which does not match
the profile key workAuthorization) finds undefined and yields null, as
does an empty string value. -/
def getValueFromProfile (profile : Profile) (intent : String) : Option String :=
  if intent = "personal.firstName" then truthyStr profile.personal.firstName
  else if intent = "personal.lastName" then truthyStr profile.personal.lastName
  else if intent = "personal.email" then truthyStr profile.personal.email
  else if intent = "personal.phone" then truthyStr profile.personal.phone
  else if intent = "personal.country" then truthyStr profile.personal.country
  else if intent = "personal.city" then truthyStr profile.personal.city
  else if intent = "personal.state" then truthyStr profile.personal.state
  else if intent = "personal.gender" then truthyStr profile.personal.gender
  else if intent = "eeo.gender" then truthyStr profile.eeo.gender
  else if intent = "eeo.hispanic" then truthyStr profile.eeo.hispanic
  else if intent = "eeo.veteran" then truthyStr profile.eeo.veteran
  else if intent = "eeo.disability" then truthyStr profile.eeo.disability
  else if intent = "eeo.race" then truthyStr profile.eeo.race
  else if intent = "social.linkedin" then truthyStr profile.social.linkedin
  else if intent = "social.website" then truthyStr profile.social.website
  else if intent = "workAuthorization.driverLicense" then
    boolValue profile.workAuthorization.driverLicense
  else if intent = "workAuthorization.needsSponsorship" then
    boolValue profile.workAuthorization.needsSponsorship
  else if intent = "workAuthorization.authorizedUS" then
    boolValue profile.workAuthorization.authorizedUS
  else if intent = "application.hasRelatives" then
    boolValue profile.application.hasRelatives
  else if intent = "application.previouslyApplied" then
    boolValue profile.application.previouslyApplied
  else none

/-- The containment-based variant-to-option test shared by the learned
tier and findBestVariant. -/
def variantOptionMatch (variant opt : String) : Bool :=
  jsLower opt = jsLower variant || strIncludes (jsLower opt) (jsLower variant) ||
    strIncludes (jsLower variant) (jsLower opt)

/-- QuestionMapper.findBestVariant: locate the mapping for the canonical
value, then the first stored variant matching an option; with no options
the first variant (or the canonical value) is returned. -/
def findBestVariant (canonicalValue : String) (answerMappings : List AnswerMapping)
    (options : Option (List String)) : Option String :=
  match answerMappings.find? (fun m => m.canonicalValue = canonicalValue) with
  | none => none
  | some mapping =>
    match options with
    | none =>
      some (match mapping.variants.head? with
            | some v => if v = "" then canonicalValue else v
            | none => canonicalValue)
    | some opts =>
      if opts.length = 0 then
        some (match mapping.variants.head? with
              | some v => if v = "" then canonicalValue else v
              | none => canonicalValue)
      else
        mapping.variants.findSome? (fun variant =>
          opts.find? (fun opt => variantOptionMatch variant opt))

/-- QuestionMapper.tryLearned: look up a stored pattern (which bumps its
usage count), try every stored variant against the current options, then
fall back to the profile value for the pattern's intent. -/
def tryLearned (q : Question) (profile : Profile) (store : Store) (now : String) :
    Option TierResult × Store :=
  match findPattern q.questionText now store with
  | (none, store') => (none, store')
  | (some pattern, store') =>
    let canonicalValue := getValueFromProfile profile pattern.intent
    let variantHit : Option String :=
      match pattern.answerMappings, q.options with
      | some mappings, some opts =>
        if mappings.length > 0 then
          mappings.findSome? (fun mapping =>
            mapping.variants.findSome? (fun variant =>
              opts.find? (fun opt => variantOptionMatch variant opt)))
        else none
      | _, _ => none
    match variantHit with
    | some m =>
      (some { answer := m, source := .learned, confidence := pattern.confidence }, store')
    | none =>
      match canonicalValue with
      | some cv =>
        match pattern.answerMappings with
        | some mappings =>
          if mappings.length > 0 then
            match findBestVariant cv mappings q.options with
            | some answer =>
              (some { answer, source := .learned, confidence := pattern.confidence }, store')
            | none => (none, store')
          else
            match q.options with
            | some opts =>
              if opts.length > 0 then
                match opts.find? (fun opt => variantOptionMatch cv opt) with
                | some m =>
                  (some { answer := m, source := .learned,
                          confidence := pattern.confidence }, store')
                | none => (none, store')
              else
                (some { answer := cv, source := .learned,
                        confidence := pattern.confidence }, store')
            | none =>
              (some { answer := cv, source := .learned,
                      confidence := pattern.confidence }, store')
        | none =>
          match q.options with
          | some opts =>
            if opts.length > 0 then
              match opts.find? (fun opt => variantOptionMatch cv opt) with
              | some m =>
                (some { answer := m, source := .learned,
                        confidence := pattern.confidence }, store')
              | none => (none, store')
            else
              (some { answer := cv, source := .learned,
                      confidence := pattern.confidence }, store')
          | none =>
            (some { answer := cv, source := .learned,
                    confidence := pattern.confidence }, store')
      | none => (none, store')

/-- QuestionMapper.tryMapping: canonical, then learned, then (only with a
non-empty option list) fuzzy, short-circuiting on the first success.  The
store is threaded because the learned tier's lookup has a usage-count
side effect. -/
def tryMapping (q : Question) (profile : Profile) (store : Store) (now : String) :
    Option TierResult × Store :=
  match tryCanonical q profile with
  | some r => (some r, store)
  | none =>
    match tryLearned q profile store now with
    | (some r, store') => (some r, store')
    | (none, store') =>
      match q.options with
      | some opts =>
        if opts.length > 0 then (tryFuzzy q profile, store') else (none, store')
      | none => (none, store')

/- ## AI oracle boundary and the learning step -/

/-- The request body sent to the AI oracle by askAI. -/
structure AIRequest where
  question : String
  fieldType : String
  options : List String
  userProfile : Profile
  deriving DecidableEq

/-- The response body of the AI oracle.  A transport error or a rejected
request is modelled by the oracle function returning none (the source
catches the error per question). -/
structure AIResponse where
  answer : String
  confidence : ℚ
  intent : Option String := none
  isNewIntent : Bool := false
  suggestedIntentName : Option String := none
  deriving DecidableEq

/-- The oracle itself, an opaque boundary. -/
abbrev Oracle := AIRequest → Option AIResponse

/-- The request construction inside requestAIAnswers: options are passed
along only when present with at most 20 entries, otherwise the empty
list is sent. -/
def buildAIRequest (q : Question) (profile : Profile) : AIRequest :=
  { question := q.questionText, fieldType := q.fieldType,
    options :=
      match q.options with
      | some opts => if opts.length ≤ 20 then opts else []
      | none => [],
    userProfile := profile }

/-- The per-question body of requestAIAnswers: ask the oracle, then
validate a non-empty answer against the question's options (exact match
first, then fuzzy coercion), dropping the question when validation
fails. -/
def aiAnswerFor (askAI : Oracle) (profile : Profile) (q : Question) : Option MappedAnswer :=
  match askAI (buildAIRequest q profile) with
  | none => none
  | some resp =>
    if resp.answer = "" then none
    else
      let mk : String → Option MappedAnswer := fun finalAnswer =>
        some { selector := q.selector, questionText := q.questionText,
               answer := finalAnswer, source := .AI,
               confidence := if resp.confidence = 0 then mkRat 8 10 else resp.confidence,
               required := q.required, fieldType := q.fieldType,
               options := q.options, canonicalKey := resp.intent, fileName := none,
               isNewIntent := resp.isNewIntent,
               suggestedIntentName :=
                 if resp.isNewIntent then resp.suggestedIntentName else none }
      match q.options with
      | some opts =>
        if opts.length > 0 then
          match opts.find? (fun opt => jsTrim (jsLower opt) = jsTrim (jsLower resp.answer)) with
          | some exactMatch => mk exactMatch
          | none =>
            match fuzzyMatchOption resp.answer opts with
            | some fm => mk fm
            | none => none
        else mk resp.answer
      | none => mk resp.answer

/-- QuestionMapper.requestAIAnswers: all unmapped questions are asked in
parallel and the per-question failures filtered out, preserving question
order. -/
def requestAIAnswers (askAI : Oracle) (profile : Profile) (questions : List Question) :
    List MappedAnswer :=
  questions.filterMap (aiAnswerFor askAI profile)

/-- QuestionMapper.normalizeQuestion: lowercase, strip asterisks and
question and exclamation marks, trim. -/
def normalizeQuestion (questionText : String) : String :=
  jsTrim (((jsLower questionText).toList.filter
      (fun c => !(c = '*' || c = '?' || c = '!'))).asString)

/-- QuestionMapper.detectIntent: match the answer against profile values
first, then fall back to keyword detection over the question text. -/
def detectIntent (questionText answer : String) (profile : Profile) : Option String :=
  let qLower := jsLower questionText
  if profile.eeo.gender = some answer then some "eeo.gender"
  else if profile.eeo.hispanic = some answer then some "eeo.hispanic"
  else if profile.eeo.veteran = some answer then some "eeo.veteran"
  else if profile.eeo.disability = some answer then some "eeo.disability"
  else if profile.eeo.race = some answer then some "eeo.race"
  else if profile.personal.firstName = some answer then some "personal.firstName"
  else if profile.personal.lastName = some answer then some "personal.lastName"
  else if profile.personal.email = some answer then some "personal.email"
  else if profile.personal.phone = some answer then some "personal.phone"
  else if profile.personal.city = some answer then some "personal.city"
  else if profile.personal.state = some answer then some "personal.state"
  else if profile.personal.country = some answer then some "personal.country"
  else if profile.social.linkedin = some answer then some "social.linkedin"
  else if profile.social.website = some answer then some "social.website"
  else if strIncludes qLower "gender" || strIncludes qLower "sex" then some "eeo.gender"
  else if strIncludes qLower "hispanic" || strIncludes qLower "latino" then some "eeo.hispanic"
  else if strIncludes qLower "veteran" then some "eeo.veteran"
  else if strIncludes qLower "disability" then some "eeo.disability"
  else if strIncludes qLower "race" || strIncludes qLower "ethnicity" then some "eeo.race"
  else if strIncludes qLower "sponsor" then some "workAuth.needsSponsorship"
  else if strIncludes qLower "authorized" && strIncludes qLower "work" then
    some "workAuth.authorizedUS"
  else if strIncludes qLower "driver" && strIncludes qLower "license" then
    some "workAuth.driverLicense"
  else if strIncludes qLower "linkedin" then some "social.linkedin"
  else if strIncludes qLower "website" || strIncludes qLower "portfolio" then
    some "social.website"
  else if strIncludes qLower "first name" || strIncludes qLower "given name" then
    some "personal.firstName"
  else if strIncludes qLower "last name" || strIncludes qLower "family name" ||
      strIncludes qLower "surname" then some "personal.lastName"
  else if strIncludes qLower "email" then some "personal.email"
  else if strIncludes qLower "phone" || strIncludes qLower "mobile" then
    some "personal.phone"
  else none

/-- QuestionMapper.learnFromAIResponse: determine an intent (the
AI-supplied classification first, keyword detection as fallback) and
persist the observed answer as a variant through addPattern; without an
intent the store is left unchanged. -/
def learnFromAIResponse (profile : Profile) (now newId : String) (q : Question)
    (answer : MappedAnswer) (store : Store) : Store :=
  let conf : ℚ := if answer.confidence = 0 then mkRat 8 10 else answer.confidence
  match truthyStr answer.canonicalKey with
  | some intent =>
    if answer.isNewIntent then
      let np : NewPattern :=
        { questionPattern := normalizeQuestion q.questionText, intent := intent,
          canonicalKey := intent, fieldType := q.fieldType, confidence := conf,
          source := "AI-new",
          answerMappings :=
            match q.options with
            | some opts =>
              some [{ canonicalValue := answer.answer, variants := [answer.answer],
                      contextOptions := some opts }]
            | none => none }
      addPattern newId now np store
    else
      let valueToStore := (getValueFromProfile profile intent).getD answer.answer
      let np : NewPattern :=
        { questionPattern := normalizeQuestion q.questionText, intent := intent,
          canonicalKey := intent, fieldType := q.fieldType, confidence := conf,
          source := "AI",
          answerMappings :=
            some [{ canonicalValue := valueToStore, variants := [answer.answer],
                    contextOptions := some (q.options.getD []) }] }
      addPattern newId now np store
  | none =>
    match detectIntent q.questionText answer.answer profile with
    | some intent =>
      let valueToStore := (getValueFromProfile profile intent).getD answer.answer
      let np : NewPattern :=
        { questionPattern := normalizeQuestion q.questionText, intent := intent,
          canonicalKey := intent, fieldType := q.fieldType, confidence := conf,
          source := "AI",
          answerMappings :=
            some [{ canonicalValue := valueToStore, variants := [answer.answer],
                    contextOptions := some (q.options.getD []) }] }
      addPattern newId now np store
    | none => store

/- ## QuestionMapper.processQuestions -/

/-- The phase-1 answer record pushed for a high-confidence tier result. -/
def toMapped (q : Question) (r : TierResult) : MappedAnswer :=
  { selector := q.selector, questionText := q.questionText, answer := r.answer,
    source := r.source, confidence := r.confidence, required := q.required,
    fieldType := q.fieldType, options := q.options, fileName := r.fileName }

/-- Phase 1 of processQuestions: run tryMapping over the questions in
order, keeping results with confidence at least 0.85 and queueing the
rest for the AI phase. -/
def phase1 (profile : Profile) (now : String) :
    List Question → Store → List MappedAnswer × List Question × Store
  | [], store => ([], [], store)
  | q :: rest, store =>
    let (r, store₁) := tryMapping q profile store now
    let (mapped, unmapped, store₂) := phase1 profile now rest store₁
    match r with
    | some res =>
      if (mkRat 85 100) ≤ res.confidence then (toMapped q res :: mapped, unmapped, store₂)
      else (mapped, q :: unmapped, store₂)
    | none => (mapped, q :: unmapped, store₂)

/-- The learning loop of processQuestions: it walks the indices of the
unmapped list but reads answers from the filtered AI result list, so an
index beyond that list silently learns nothing. -/
def processLearn (profile : Profile) (now : String) (ids : Nat → String)
    (unmapped : List Question) (aiAnswers : List MappedAnswer) (store : Store) : Store :=
  (List.range unmapped.length).foldl
    (fun st i =>
      match unmapped[i]?, aiAnswers[i]? with
      | some q, some a => learnFromAIResponse profile now (ids i) q a st
      | _, _ => st)
    store

/-- QuestionMapper.processQuestions: hard error without a profile;
otherwise phase 1 over all questions, then the parallel AI phase with its
learning write-back, appending validated AI answers after the phase-1
answers.  The timestamp and the id supply for generated pattern ids are
explicit parameters. -/
def processQuestions (askAI : Oracle) (now : String) (ids : Nat → String)
    (questions : List Question) (profileOpt : Option Profile) (store : Store) :
    Except String (List MappedAnswer × Store) :=
  match profileOpt with
  | none => .error "No profile found. Please complete onboarding."
  | some profile =>
    let (mapped, unmapped, store₁) := phase1 profile now questions store
    if unmapped.length > 0 then
      let aiAnswers := requestAIAnswers askAI profile unmapped
      let store₂ := processLearn profile now ids unmapped aiAnswers store₁
      .ok (mapped ++ aiAnswers, store₂)
    else .ok (mapped, store₁)

/- ## FormScanner.deduplicateQuestions -/

/-- The deduplication key: lowercased, trimmed question text. -/
def dedupeKey (q : Question) : String :=
  jsTrim (jsLower q.questionText)

/-- The filter loop of deduplicateQuestions with its seen-set made
explicit. -/
def dedupeAux (seen : List String) : List Question → List Question
  | [] => []
  | q :: rest =>
    if seen.contains (dedupeKey q) then dedupeAux seen rest
    else q :: dedupeAux (dedupeKey q :: seen) rest

/-- FormScanner.deduplicateQuestions: keep the first occurrence of each
case-insensitive normalized question text. -/
def deduplicateQuestions (questions : List Question) : List Question :=
  dedupeAux [] questions

/- ## FormScanner.detectFieldType -/

/-- Tag of a DOM element as far as detectFieldType discriminates:
a select element, a textarea, an input with its type attribute, or any
other element. -/
inductive DomTag where
  | select
  | textarea
  | input (ty : String)
  | other
  deriving DecidableEq

/-- A DOM forest in first-child next-sibling form: nil is the empty
forest, elem is an element with its attributes relevant to
detectFieldType, its subtree of children and its following siblings. -/
inductive Dom where
  | nil
  | elem (tag : DomTag) (role ariaHasPopup : Option String) (children : Dom) (next : Dom)
  deriving DecidableEq

/-- Whether some element of the forest (including nested descendants)
satisfies the predicate: the semantics of querySelector hit-testing over
a subtree. -/
def anyElem (p : DomTag → Option String → Option String → Bool) : Dom → Bool
  | .nil => false
  | .elem t r a cs next => p t r a || anyElem p cs || anyElem p next

/-- The input tag test of the selector input[role=combobox]. -/
def isInputTag : DomTag → Bool
  | .input _ => true
  | _ => false

/-- The switch over the input type attribute at the end of
detectFieldType. -/
def inputTypeSwitch (ty : String) : String :=
  let t := jsLower ty
  if t = "email" then "email"
  else if t = "tel" then "tel"
  else if t = "number" then "number"
  else if t = "date" then "date"
  else if t = "file" then "file"
  else if t = "radio" then "radio"
  else if t = "checkbox" then "checkbox"
  else "text"

/-- FormScanner.detectFieldType on an element described by its tag, its
own role and aria-haspopup attributes, the roles of its ancestors
(nearest first, consulted by the closest call) and its children forest
(consulted by the querySelector calls).  Custom-dropdown signals are
checked before everything else; the role test appears both directly and
through the closest call, as in the source. -/
def detectFieldType (ancestorRoles : List (Option String)) (tag : DomTag)
    (role ariaHasPopup : Option String) (children : Dom) : String :=
  if role = some "combobox" || ariaHasPopup = some "listbox" ||
      (role = some "combobox" || ancestorRoles.contains (some "combobox")) ||
      anyElem (fun _ r _ => r = some "combobox") children ||
      anyElem (fun t r _ => isInputTag t && r = some "combobox") children then
    "dropdown_custom"
  else if tag = .select then "select"
  else if anyElem (fun t _ _ => t = .select) children then "select"
  else if tag = .textarea then "textarea"
  else
    match tag with
    | .input ty => inputTypeSwitch ty
    | _ => "text"

/- ## autofillRunner.runAutofill -/

/-- ResolvedField, one entry of the fill payload. -/
structure ResolvedField where
  questionText : String
  canonicalKey : Option String := none
  fieldType : String := "TEXT"
  value : String := ""
  selector : Option String := none
  options : Option (List String) := none
  fileName : Option String := none
  deriving DecidableEq

/-- One entry of the itemized result list runAutofill accumulates. -/
structure ItemResult where
  questionText : String
  ok : Bool
  reason : Option String := none
  deriving DecidableEq

/-- One field-failure report sent to the background boundary. -/
structure FailReport where
  code : String
  field : ResolvedField
  deriving DecidableEq

/-- The accumulated outcome of a run: itemized results, the aggregate
tally, and the emitted failure reports, in order. -/
structure RunOutcome where
  results : List ItemResult := []
  successes : Nat := 0
  failures : Nat := 0
  reports : List FailReport := []
  deriving DecidableEq

/-- The body of runAutofill's per-field loop.  bestMatch abstracts
bestMatchField over the detected fields of the live DOM, and fill
abstracts fillMatchedField (false covers both a failed verification and
a caught exception). -/
def runStep {Elem : Type} (bestMatch : String → Option String → Option Elem)
    (fill : Elem → ResolvedField → Bool) (acc : RunOutcome) (rf : ResolvedField) :
    RunOutcome :=
  match bestMatch rf.questionText rf.canonicalKey with
  | none =>
    { acc with
      results := acc.results ++ [{ questionText := rf.questionText, ok := false,
                                   reason := some "No DOM match" }],
      failures := acc.failures + 1,
      reports := acc.reports ++ [{ code := "NO_DOM_MATCH", field := rf }] }
  | some el =>
    if fill el rf then
      { acc with
        results := acc.results ++ [{ questionText := rf.questionText, ok := true }],
        successes := acc.successes + 1 }
    else
      { acc with
        results := acc.results ++ [{ questionText := rf.questionText, ok := false }],
        failures := acc.failures + 1,
        reports := acc.reports ++ [{ code := "FILL_VERIFY_FAILED", field := rf }] }

/-- autofillRunner.runAutofill: fill every field of the payload in order,
accumulating per-field results, the success and failure tallies, and the
failure reports. -/
def runAutofill {Elem : Type} (bestMatch : String → Option String → Option Elem)
    (fill : Elem → ResolvedField → Bool) (fields : List ResolvedField) : RunOutcome :=
  fields.foldl (runStep bestMatch fill) {}

/-- The per-field success test of a run: a DOM match was found and the
fill verified. -/
def fieldSucceeds {Elem : Type} (bestMatch : String → Option String → Option Elem)
    (fill : Elem → ResolvedField → Bool) (rf : ResolvedField) : Bool :=
  match bestMatch rf.questionText rf.canonicalKey with
  | none => false
  | some el => fill el rf

/-- The itemized result runAutofill records for one field. -/
def itemFor {Elem : Type} (bestMatch : String → Option String → Option Elem)
    (fill : Elem → ResolvedField → Bool) (rf : ResolvedField) : ItemResult :=
  match bestMatch rf.questionText rf.canonicalKey with
  | none => { questionText := rf.questionText, ok := false, reason := some "No DOM match" }
  | some el =>
    if fill el rf then { questionText := rf.questionText, ok := true }
    else { questionText := rf.questionText, ok := false }

/-- The failure report runAutofill emits for one field, if any. -/
def reportFor {Elem : Type} (bestMatch : String → Option String → Option Elem)
    (fill : Elem → ResolvedField → Bool) (rf : ResolvedField) : Option FailReport :=
  match bestMatch rf.questionText rf.canonicalKey with
  | none => some { code := "NO_DOM_MATCH", field := rf }
  | some el =>
    if fill el rf then none else some { code := "FILL_VERIFY_FAILED", field := rf }

/- ## Support lemmas -/

theorem runStep_eq {Elem : Type} (bestMatch : String → Option String → Option Elem)
    (fill : Elem → ResolvedField → Bool) (acc : RunOutcome) (rf : ResolvedField) :
    runStep bestMatch fill acc rf =
      { results := acc.results ++ [itemFor bestMatch fill rf],
        successes := acc.successes + (if fieldSucceeds bestMatch fill rf then 1 else 0),
        failures := acc.failures + (if fieldSucceeds bestMatch fill rf then 0 else 1),
        reports := acc.reports ++ (reportFor bestMatch fill rf).toList } := by
  unfold runStep itemFor fieldSucceeds reportFor
  cases hbm : bestMatch rf.questionText rf.canonicalKey with
  | none => simp
  | some el =>
    cases hf : fill el rf with
    | false => simp [hf]
    | true => simp [hf]

theorem runStep_foldl {Elem : Type} (bestMatch : String → Option String → Option Elem)
    (fill : Elem → ResolvedField → Bool) (fields : List ResolvedField) (acc : RunOutcome) :
    fields.foldl (runStep bestMatch fill) acc =
      { results := acc.results ++ fields.map (itemFor bestMatch fill),
        successes := acc.successes + fields.countP (fieldSucceeds bestMatch fill),
        failures :=
          acc.failures + fields.countP (fun rf => !fieldSucceeds bestMatch fill rf),
        reports := acc.reports ++ fields.filterMap (reportFor bestMatch fill) } := by
  induction fields generalizing acc with
  | nil => simp
  | cons rf rest ih =>
    rw [List.foldl_cons, runStep_eq, ih]
    simp only [List.map_cons, List.countP_cons, List.filterMap_cons, List.append_assoc,
      List.singleton_append, RunOutcome.mk.injEq]
    refine ⟨trivial, ?_, ?_, ?_⟩
    · cases h : fieldSucceeds bestMatch fill rf <;> simp [h] <;> omega
    · cases h : fieldSucceeds bestMatch fill rf <;> simp [h] <;> omega
    · cases h : reportFor bestMatch fill rf <;> simp

/- ## Claim theorems -/

/-- C6: runAutofill processes every resolved field regardless of earlier
failures, yielding exactly one itemized result per field (the per-field
outcome of itemFor), reporting NO_DOM_MATCH when no live element matches
and FILL_VERIFY_FAILED when the applied fill does not verify, with
successes plus failures equal to the number of input fields. -/
theorem claim_C6 {Elem : Type} (bestMatch : String → Option String → Option Elem)
    (fill : Elem → ResolvedField → Bool) (fields : List ResolvedField) :
    (runAutofill bestMatch fill fields).results = fields.map (itemFor bestMatch fill) ∧
    (runAutofill bestMatch fill fields).reports =
      fields.filterMap (reportFor bestMatch fill) ∧
    (runAutofill bestMatch fill fields).successes +
        (runAutofill bestMatch fill fields).failures = fields.length ∧
    (runAutofill bestMatch fill fields).results.length = fields.length := by
  have h := runStep_foldl bestMatch fill fields {}
  rw [runAutofill, h]
  refine ⟨by simp, by simp, ?_, by simp⟩
  simpa using (List.length_eq_countP_add_countP (fieldSucceeds bestMatch fill) fields).symm

/-- C5: processQuestions fails exactly when no profile is available, with
the onboarding error; with any profile it completes normally (per-question
misses are dropped from the list, not raised). -/
theorem claim_C5 (askAI : Oracle) (now : String) (ids : Nat → String)
    (questions : List Question) (profileOpt : Option Profile) (store : Store) :
    (processQuestions askAI now ids questions profileOpt store).isOk =
      profileOpt.isSome ∧
    processQuestions askAI now ids questions none store =
      .error "No profile found. Please complete onboarding." := by
  refine ⟨?_, rfl⟩
  cases profileOpt with
  | none => rfl
  | some profile =>
    simp only [processQuestions]
    rcases phase1 profile now questions store with ⟨mapped, unmapped, store₁⟩
    by_cases h : unmapped.length > 0 <;> simp [h, Except.isOk, Except.toBool]

/-- C9: the options field of an AI request equals the question's option
list exactly when that list exists with at most 20 entries; a missing or
oversized list results in the empty list being sent. -/
theorem claim_C9 (q : Question) (profile : Profile) :
    (∀ opts, q.options = some opts →
      ((buildAIRequest q profile).options = opts ↔ opts.length ≤ 20)) ∧
    (q.options = none → (buildAIRequest q profile).options = []) ∧
    (∀ opts, q.options = some opts → 20 < opts.length →
      (buildAIRequest q profile).options = []) := by
  refine ⟨fun opts h => ?_, fun h => by simp [buildAIRequest, h], fun opts h hlen => ?_⟩
  · simp only [buildAIRequest, h]
    by_cases hle : opts.length ≤ 20
    · simp [hle]
    · simp only [if_neg hle]
      constructor
      · intro heq
        exfalso
        apply hle
        rw [← heq]
        simp
      · intro hle2
        exact absurd hle2 hle
  · simp only [buildAIRequest, h]
    rw [if_neg (by omega)]

/-- A concrete two-option question for the C9 witness. -/
def witnessQ9a : Question :=
  { questionText := "Degree", fieldType := "select",
    options := some ["BS", "MS"], required := false, selector := "#d" }

/-- A concrete option-free question for the C9 witness. -/
def witnessQ9b : Question :=
  { questionText := "Summary", fieldType := "textarea",
    options := none, required := false, selector := "#s" }

/-- Witness for C9 at a concrete two-option question and a concrete
option-free question. -/
theorem claim_C9_witness :
    (buildAIRequest witnessQ9a emptyProfile).options = ["BS", "MS"] ∧
    (buildAIRequest witnessQ9b emptyProfile).options = [] :=
  ⟨((claim_C9 witnessQ9a emptyProfile).1 _ rfl).mpr (by decide),
   (claim_C9 witnessQ9b emptyProfile).2.1 rfl⟩

/-- Membership in the option list for every successful matchInOptions
call with a non-empty option list: each tier selects with find? over the
options. -/
theorem matchInOptions_mem {value : String} {opts : List String} {confidence : ℚ}
    {r : TierResult} (hne : opts ≠ [])
    (h : matchInOptions value (some opts) confidence = some r) : r.answer ∈ opts := by
  simp only [matchInOptions] at h
  rw [if_neg (by simpa using hne)] at h
  split at h
  · cases h
    exact List.mem_of_find?_eq_some (by assumption)
  · split at h
    · cases h
      obtain ⟨syn, -, hfind⟩ := List.exists_of_findSome?_eq_some (by assumption)
      exact List.mem_of_find?_eq_some hfind
    · split at h
      · cases h
        exact List.mem_of_find?_eq_some (by assumption)
      · split at h
        · cases h
          exact List.mem_of_find?_eq_some (by assumption)
        · split at h
          · split at h
            · cases h
              exact List.mem_of_find?_eq_some (by assumption)
            · cases h
          · cases h

/-- C8 counterexample: an element none of whose own attributes signal a
dropdown, but whose child carries aria-haspopup equal to listbox, is
classified text, not dropdown_custom — the source only tests
aria-haspopup on the element itself. -/
theorem claim_C8_counterexample :
    detectFieldType [] DomTag.other none none
        (Dom.elem .other none (some "listbox") .nil .nil) = "text" ∧
    anyElem (fun _ _ ahp => ahp = some "listbox")
        (Dom.elem .other none (some "listbox") .nil .nil) = true := by
  constructor
  · rfl
  · rfl

/-- C8 (amended): custom-dropdown signals are checked before the native
input-type checks, so role combobox on the element, on an ancestor, or on
a descendant, or aria-haspopup listbox on the element itself, classifies
it dropdown_custom regardless of its tag; in particular an input of type
text with role combobox is dropdown_custom, not text. -/
theorem claim_C8_amended :
    (∀ (ancestorRoles : List (Option String)) (tag : DomTag)
      (role ariaHasPopup : Option String) (children : Dom),
      (role = some "combobox" ∨ ariaHasPopup = some "listbox" ∨
        some "combobox" ∈ ancestorRoles ∨
        anyElem (fun _ r _ => r = some "combobox") children = true) →
      detectFieldType ancestorRoles tag role ariaHasPopup children = "dropdown_custom") ∧
    ∀ ancestorRoles : List (Option String),
      detectFieldType ancestorRoles (.input "text") (some "combobox") none .nil =
        "dropdown_custom" := by
  constructor
  · intro ancestorRoles tag role ariaHasPopup children h
    unfold detectFieldType
    rcases h with h | h | h | h
    · rw [if_pos]
      simp [h]
    · rw [if_pos]
      simp [h]
    · rw [if_pos]
      simp [h]
    · rw [if_pos]
      simp [h]
  · intro ancestorRoles
    unfold detectFieldType
    rw [if_pos]
    simp

/-- Witness for C8 (amended): a plain container whose ancestor carries
role combobox is classified dropdown_custom. -/
theorem claim_C8_amended_witness :
    detectFieldType [some "combobox"] DomTag.other none none .nil = "dropdown_custom" :=
  claim_C8_amended.1 [some "combobox"] DomTag.other none none .nil
    (Or.inr (Or.inr (Or.inl (by decide))))

/-- A concrete first-name question whose options do not contain the
profile value, for the C1 counterexample. -/
def cexQ1 : Question :=
  { questionText := "First Name", fieldType := "text",
    options := some ["Alice", "Bob"], required := true, selector := "#fn" }

/-- A profile holding only a first name, for the C1 counterexample. -/
def cexProfile1 : Profile :=
  { personal := { firstName := some "Charlie" } }

/-- C1 counterexample: the canonical first-name branch returns the
profile value directly, so processQuestions emits Charlie for a question
whose non-empty option list is Alice and Bob — the answer equals no
option even case-insensitively, and the question is not dropped. -/
theorem claim_C1_counterexample :
    (processQuestions (fun _ => none) "t0" (fun _ => "p0") [cexQ1]
        (some cexProfile1) []).toOption.map
      (fun r => r.1.map (fun a => (a.answer, a.source, a.options))) =
      some [("Charlie", Source.canonical, some ["Alice", "Bob"])] ∧
    (["Alice", "Bob"].all
      (fun opt => !(jsTrim (jsLower opt) = jsTrim (jsLower "Charlie")))) = true := by
  constructor
  · rfl
  · rfl

/-- C1 (amended): every answer that is resolved through the multi-tier
option matcher (the canonical EEO and country branches, the fuzzy tier
and AI-answer validation all call matchInOptions) is an element of the
question's non-empty option list; the canonical direct-return branches
and the booleanToYesNo literal fallback are the exceptions that can
escape the option set. -/
theorem claim_C1_amended (value : String) (opts : List String) (confidence : ℚ)
    (r : TierResult) (hne : opts ≠ [])
    (h : matchInOptions value (some opts) confidence = some r) :
    r.answer ∈ opts :=
  matchInOptions_mem hne h

/-- Witness for C1 (amended): the synonym tier maps Male into the
concrete option list containing Man. -/
theorem claim_C1_amended_witness :
    (["Man", "Woman", "Non-binary"] : List String) ≠ [] ∧
    matchInOptions "Male" (some ["Man", "Woman", "Non-binary"]) 1 =
      some { answer := "Man", source := .canonical, confidence := 1 } ∧
    ("Man" : String) ∈ ["Man", "Woman", "Non-binary"] :=
  ⟨by decide, by rfl,
    have h : matchInOptions "Male" (some ["Man", "Woman", "Non-binary"]) 1 =
        some { answer := "Man", source := .canonical, confidence := 1 } := by rfl
    claim_C1_amended "Male" ["Man", "Woman", "Non-binary"] 1 _ (by decide) h⟩

/-- Case split for the early-return chain: a produced result comes from
the first branch or the first branch fell through. -/
theorem jsOr_getD_cases {α : Type} {a b : Option (Option α)} {r : α}
    (h : (jsOr a b).getD none = some r) :
    a.getD none = some r ∨ (a = none ∧ b.getD none = some r) := by
  cases a with
  | none => exact Or.inr ⟨rfl, h⟩
  | some x => exact Or.inl h

/-- Every successful matchInOptions result carries the caller's
confidence and the canonical source tag. -/
theorem matchInOptions_props {value : String} {opts : Option (List String)}
    {confidence : ℚ} {r : TierResult}
    (h : matchInOptions value opts confidence = some r) :
    r.confidence = confidence ∧ r.source = .canonical := by
  cases opts with
  | none =>
    simp only [matchInOptions] at h
    injection h with h
    subst h
    exact ⟨rfl, rfl⟩
  | some os =>
    simp only [matchInOptions] at h
    by_cases hl : os.length = 0
    · rw [if_pos hl] at h
      injection h with h
      subst h
      exact ⟨rfl, rfl⟩
    · rw [if_neg hl] at h
      split at h
      · injection h with h
        subst h
        exact ⟨rfl, rfl⟩
      · split at h
        · injection h with h
          subst h
          exact ⟨rfl, rfl⟩
        · split at h
          · injection h with h
            subst h
            exact ⟨rfl, rfl⟩
          · split at h
            · injection h with h
              subst h
              exact ⟨rfl, rfl⟩
            · split at h
              · split at h
                · injection h with h
                  subst h
                  exact ⟨rfl, rfl⟩
                · cases h
              · cases h

/-- Direct canonical branches return confidence 1 and the canonical
tag. -/
theorem directBranch_props {cond : Bool} {v : Option String} {r : TierResult}
    (h : (directBranch cond v).getD none = some r) :
    r.confidence = 1 ∧ r.source = .canonical := by
  unfold directBranch at h
  split at h
  · cases ht : truthyStr v with
    | none => rw [ht] at h; cases h
    | some s =>
      rw [ht] at h
      simp only [Option.map_some', Option.getD_some, Option.some.injEq] at h
      subst h
      exact ⟨rfl, rfl⟩
  · cases h

/-- Option-matching canonical branches return confidence 1 and the
canonical tag. -/
theorem optionBranch_props {cond : Bool} {v : Option String}
    {opts : Option (List String)} {r : TierResult}
    (h : (optionBranch cond v opts).getD none = some r) :
    r.confidence = 1 ∧ r.source = .canonical := by
  unfold optionBranch at h
  split at h
  · cases ht : truthyStr v with
    | none => rw [ht] at h; cases h
    | some s =>
      rw [ht] at h
      simp only [Option.map_some', Option.getD_some] at h
      exact matchInOptions_props h
  · cases h

/-- Boolean canonical branches return confidence 1 and the canonical
tag. -/
theorem boolBranch_props {cond : Bool} {v : Option Bool}
    {opts : Option (List String)} {r : TierResult}
    (h : (boolBranch cond v opts).getD none = some r) :
    r.confidence = 1 ∧ r.source = .canonical := by
  unfold boolBranch at h
  split at h
  · cases v with
    | none => cases h
    | some b =>
      simp only [Option.map_some', Option.getD_some, Option.some.injEq] at h
      subst h
      exact ⟨rfl, rfl⟩
  · cases h

/-- File-upload canonical branches return confidence 1 and the canonical
tag. -/
theorem fileBranch_props {cond : Bool} {doc : Option DocumentInfo}
    {name : DocumentInfo → String} {r : TierResult}
    (h : (fileBranch cond doc name).getD none = some r) :
    r.confidence = 1 ∧ r.source = .canonical := by
  unfold fileBranch at h
  repeat split at h
  all_goals first
    | (injection h with h; subst h; exact ⟨rfl, rfl⟩)
    | cases h

/-- Every canonical-tier success carries confidence 1 and the canonical
source tag. -/
theorem tryCanonical_props {q : Question} {profile : Profile} {r : TierResult}
    (h : tryCanonical q profile = some r) :
    r.confidence = 1 ∧ r.source = .canonical := by
  simp only [tryCanonical] at h
  rcases jsOr_getD_cases h with h | ⟨-, h⟩
  · exact directBranch_props h
  rcases jsOr_getD_cases h with h | ⟨-, h⟩
  · exact directBranch_props h
  rcases jsOr_getD_cases h with h | ⟨-, h⟩
  · exact directBranch_props h
  rcases jsOr_getD_cases h with h | ⟨-, h⟩
  · exact directBranch_props h
  rcases jsOr_getD_cases h with h | ⟨-, h⟩
  · exact optionBranch_props h
  rcases jsOr_getD_cases h with h | ⟨-, h⟩
  · exact directBranch_props h
  rcases jsOr_getD_cases h with h | ⟨-, h⟩
  · exact directBranch_props h
  rcases jsOr_getD_cases h with h | ⟨-, h⟩
  · exact directBranch_props h
  rcases jsOr_getD_cases h with h | ⟨-, h⟩
  · exact directBranch_props h
  rcases jsOr_getD_cases h with h | ⟨-, h⟩
  · exact fileBranch_props h
  rcases jsOr_getD_cases h with h | ⟨-, h⟩
  · exact fileBranch_props h
  rcases jsOr_getD_cases h with h | ⟨-, h⟩
  · exact boolBranch_props h
  rcases jsOr_getD_cases h with h | ⟨-, h⟩
  · exact boolBranch_props h
  rcases jsOr_getD_cases h with h | ⟨-, h⟩
  · exact boolBranch_props h
  rcases jsOr_getD_cases h with h | ⟨-, h⟩
  · exact boolBranch_props h
  rcases jsOr_getD_cases h with h | ⟨-, h⟩
  · exact boolBranch_props h
  rcases jsOr_getD_cases h with h | ⟨-, h⟩
  · exact optionBranch_props h
  rcases jsOr_getD_cases h with h | ⟨-, h⟩
  · exact optionBranch_props h
  rcases jsOr_getD_cases h with h | ⟨-, h⟩
  · exact optionBranch_props h
  rcases jsOr_getD_cases h with h | ⟨-, h⟩
  · exact optionBranch_props h
  exact optionBranch_props h

/-- C3: when the canonical tier succeeds, tryMapping returns its answer
with the canonical source tag and leaves the pattern store untouched
(the learned tier is never consulted), the confidence clears the 0.85
bar, and processQuestions emits exactly that canonical answer. -/
theorem claim_C3 (q : Question) (profile : Profile) (store : Store) (now : String)
    (r : TierResult) (h : tryCanonical q profile = some r) :
    tryMapping q profile store now = (some r, store) ∧ r.source = .canonical ∧
    (mkRat 85 100) ≤ r.confidence ∧
    ∀ (askAI : Oracle) (ids : Nat → String),
      processQuestions askAI now ids [q] (some profile) store =
        .ok ([toMapped q r], store) := by
  have hp := tryCanonical_props h
  have hm : tryMapping q profile store now = (some r, store) := by
    unfold tryMapping
    rw [h]
  have hc : (mkRat 85 100) ≤ r.confidence := by
    rw [hp.1, Rat.mkRat_eq_div]
    norm_num
  refine ⟨hm, hp.2, hc, fun askAI ids => ?_⟩
  simp only [processQuestions, phase1, hm, if_pos hc]
  rfl

/-- A concrete email question and profile on which the canonical tier
succeeds, for the C3 witness. -/
def witnessQ3 : Question :=
  { questionText := "Email", fieldType := "email",
    options := none, required := true, selector := "#em" }

/-- The profile for the C3 witness. -/
def witnessProfile3 : Profile :=
  { personal := { email := some "asha@example.com" } }

/-- A contradictory stored pattern for the C3 witness: it matches the
email question exactly but maps it to another intent. -/
def witnessPat3 : LearnedPattern :=
  { id := "pat3", questionPattern := "email", intent := "personal.phone",
    canonicalKey := "personal.phone", answerMappings := none,
    fieldType := "email", confidence := 1, usageCount := 3, lastUsed := "t",
    createdAt := "t", source := "AI" }

/-- Witness for C3: with a contradictory learned pattern seeded in the
store, the canonical answer still wins and the store entry is not even
touched (its usage count is unchanged). -/
theorem claim_C3_witness :
    tryMapping witnessQ3 witnessProfile3 [witnessPat3] "t1" =
      (some { answer := "asha@example.com", source := .canonical, confidence := 1 },
        [witnessPat3]) :=
  (claim_C3 witnessQ3 witnessProfile3 [witnessPat3] "t1" _ (by rfl)).1

/-- The deduplication loop only ever keeps questions whose key is not in
the seen set it started from. -/
theorem dedupeAux_key_not_mem {seen : List String} {qs : List Question} {q : Question}
    (h : q ∈ dedupeAux seen qs) : dedupeKey q ∉ seen := by
  induction qs generalizing seen with
  | nil => simp [dedupeAux] at h
  | cons p rest ih =>
    unfold dedupeAux at h
    split at h
    · exact ih h
    · next hc =>
      rcases List.mem_cons.mp h with rfl | h2
      · intro hm
        exact hc (by simpa using hm)
      · have h3 := ih h2
        exact fun hm => h3 (List.mem_cons_of_mem _ hm)

/-- The deduplication loop returns a sublist of its input. -/
theorem dedupeAux_sublist (seen : List String) (qs : List Question) :
    (dedupeAux seen qs).Sublist qs := by
  induction qs generalizing seen with
  | nil => simp [dedupeAux]
  | cons p rest ih =>
    unfold dedupeAux
    split
    · exact (ih seen).cons p
    · exact (ih _).cons₂ p

/-- Keys are pairwise distinct in the deduplicated list. -/
theorem dedupeAux_pairwise (seen : List String) (qs : List Question) :
    (dedupeAux seen qs).Pairwise (fun a b => dedupeKey a ≠ dedupeKey b) := by
  induction qs generalizing seen with
  | nil => simp [dedupeAux]
  | cons p rest ih =>
    unfold dedupeAux
    split
    · exact ih seen
    · refine List.Pairwise.cons (fun b hb heq => ?_) (ih _)
      exact dedupeAux_key_not_mem hb (heq ▸ List.mem_cons_self _ _)

/-- Every input key outside the seen set is represented in the output. -/
theorem dedupeAux_covers {seen : List String} {qs : List Question} {x : Question}
    (hx : x ∈ qs) (hs : dedupeKey x ∉ seen) :
    ∃ y ∈ dedupeAux seen qs, dedupeKey y = dedupeKey x := by
  induction qs generalizing seen with
  | nil => cases hx
  | cons p rest ih =>
    unfold dedupeAux
    rcases List.mem_cons.mp hx with rfl | hx2
    · split
      · next hc => exact absurd (by simpa using hc) hs
      · exact ⟨_, List.mem_cons_self _ _, rfl⟩
    · split
      · exact ih hx2 hs
      · by_cases hk : dedupeKey x = dedupeKey p
        · exact ⟨p, List.mem_cons_self _ _, hk.symm⟩
        · obtain ⟨y, hy, hk2⟩ := ih hx2 (fun hm => (List.mem_cons.mp hm).elim hk hs)
          exact ⟨y, List.mem_cons_of_mem _ hy, hk2⟩

/-- Every kept question is the first input question bearing its key. -/
theorem dedupeAux_first {seen : List String} {qs : List Question} {y : Question}
    (hy : y ∈ dedupeAux seen qs) :
    qs.find? (fun x => dedupeKey x == dedupeKey y) = some y := by
  induction qs generalizing seen with
  | nil => simp [dedupeAux] at hy
  | cons p rest ih =>
    unfold dedupeAux at hy
    split at hy
    · next hc =>
      have hne : ¬(dedupeKey p == dedupeKey y) = true := by
        simp only [beq_iff_eq]
        intro he
        exact dedupeAux_key_not_mem hy (he ▸ (by simpa using hc))
      rw [@List.find?_cons_of_neg _ (fun x => dedupeKey x == dedupeKey y) p rest hne]
      exact ih hy
    · rcases List.mem_cons.mp hy with rfl | hy2
      · rw [List.find?_cons_of_pos _ (by simp)]
      · have hnm := dedupeAux_key_not_mem hy2
        have hne : ¬(dedupeKey p == dedupeKey y) = true := by
          simp only [beq_iff_eq]
          exact fun he => hnm (he ▸ List.mem_cons_self _ _)
        rw [@List.find?_cons_of_neg _ (fun x => dedupeKey x == dedupeKey y) p rest hne]
        exact ih hy2

/-- C7: the scanner's deduplicated question list has pairwise distinct
lowercased-trimmed keys, is a sublist of the input, covers every input
key, and keeps exactly the first occurrence of each key in document
order. -/
theorem claim_C7 (questions : List Question) :
    (deduplicateQuestions questions).Pairwise
      (fun a b => dedupeKey a ≠ dedupeKey b) ∧
    (deduplicateQuestions questions).Sublist questions ∧
    (∀ x ∈ questions, ∃ y ∈ deduplicateQuestions questions,
      dedupeKey y = dedupeKey x) ∧
    (∀ y ∈ deduplicateQuestions questions,
      questions.find? (fun x => dedupeKey x == dedupeKey y) = some y) :=
  ⟨dedupeAux_pairwise [] questions, dedupeAux_sublist [] questions,
    fun x hx => dedupeAux_covers hx (by simp),
    fun y hy => dedupeAux_first hy⟩

/-- A first-name question for the C7 witness. -/
def witnessQ7a : Question :=
  { questionText := "First Name", fieldType := "text",
    options := none, required := false, selector := "#a" }

/-- A (differently cased, padded) duplicate of the first question for the
C7 witness. -/
def witnessQ7b : Question :=
  { questionText := " first name", fieldType := "text",
    options := none, required := false, selector := "#b" }

/-- Witness for C7: on a concrete list with a case-and-padding duplicate,
the duplicate's key is still covered, and the kept representative is the
first occurrence. -/
theorem claim_C7_witness :
    (∃ y ∈ deduplicateQuestions [witnessQ7a, witnessQ7b],
      dedupeKey y = dedupeKey witnessQ7b) ∧
    [witnessQ7a, witnessQ7b].find?
        (fun x => dedupeKey x == dedupeKey witnessQ7a) = some witnessQ7a :=
  ⟨(claim_C7 [witnessQ7a, witnessQ7b]).2.2.1 witnessQ7b (by decide),
    (claim_C7 [witnessQ7a, witnessQ7b]).2.2.2 witnessQ7a (by decide)⟩

/-- A successful lookup updates exactly the found pattern, in place, when
pattern ids are pairwise distinct. -/
theorem find_incrementUsage {pred : LearnedPattern → Bool} {store : Store}
    {p : LearnedPattern} (now : String)
    (hnd : (store.map (fun q => q.id)).Nodup)
    (hf : store.find? pred = some p) :
    ∃ i, ∃ hi : i < store.length,
      store.get ⟨i, hi⟩ = p ∧
      incrementUsage p.id now store =
        store.set i { p with usageCount := p.usageCount + 1, lastUsed := now } := by
  induction store with
  | nil => cases hf
  | cons q rest ih =>
    simp only [List.map_cons, List.nodup_cons] at hnd
    by_cases hq : pred q
    · rw [List.find?_cons_of_pos _ hq] at hf
      injection hf with hf
      subst hf
      refine ⟨0, by simp, rfl, ?_⟩
      unfold incrementUsage
      rw [if_pos rfl]
      rfl
    · rw [List.find?_cons_of_neg _ hq] at hf
      have hmem : p ∈ rest := List.mem_of_find?_eq_some hf
      obtain ⟨i, hi, hget, hinc⟩ := ih hnd.2 hf
      have hid : q.id ≠ p.id := fun he =>
        hnd.1 (he ▸ List.mem_map_of_mem (fun q => q.id) hmem)
      refine ⟨i + 1, by simpa using hi, by simpa using hget, ?_⟩
      unfold incrementUsage
      rw [if_neg hid, hinc]
      rfl

/-- C10: when pattern ids are pairwise distinct (they are generated from
a timestamp plus a random suffix), a successful findPattern bumps exactly
the matched pattern's usage count and refreshes its lastUsed timestamp,
leaving its other fields and all other patterns untouched, while an
unsuccessful lookup leaves the store unchanged. -/
theorem claim_C10 (questionText now : String) (store : Store)
    (hnd : (store.map (fun q => q.id)).Nodup) :
    ((findPattern questionText now store).1 = none →
      (findPattern questionText now store).2 = store) ∧
    (∀ p, (findPattern questionText now store).1 = some p →
      ∃ i, ∃ hi : i < store.length,
        store.get ⟨i, hi⟩ = p ∧
        (findPattern questionText now store).2 =
          store.set i { p with usageCount := p.usageCount + 1, lastUsed := now }) := by
  unfold findPattern
  cases hs : searchPatterns store questionText with
  | none => exact ⟨fun _ => rfl, fun p hp => Option.noConfusion hp⟩
  | some q =>
    refine ⟨fun hc => Option.noConfusion hc, fun p hp => ?_⟩
    injection hp with hp
    subst hp
    unfold searchPatterns at hs
    exact find_incrementUsage now hnd hs

/-- A concrete stored pattern for the C10 witness. -/
def witnessPat10 : LearnedPattern :=
  { id := "local_1_ab", questionPattern := "are you a veteran",
    intent := "eeo.veteran", canonicalKey := "eeo.veteran",
    answerMappings := none, fieldType := "radio", confidence := mkRat 8 10,
    usageCount := 4, lastUsed := "t0", createdAt := "t0", source := "AI" }

/-- The expected post-lookup record for the C10 witness. -/
def witnessPat10Upd : LearnedPattern :=
  { witnessPat10 with usageCount := witnessPat10.usageCount + 1, lastUsed := "t9" }

/-- Witness for C10: a successful lookup on a one-pattern store updates
exactly that pattern. -/
theorem claim_C10_witness :
    ∃ i, ∃ hi : i < ([witnessPat10] : Store).length,
      ([witnessPat10] : Store).get ⟨i, hi⟩ = witnessPat10 ∧
      (findPattern "Are you a veteran" "t9" [witnessPat10]).2 =
        ([witnessPat10] : Store).set i witnessPat10Upd :=
  (claim_C10 "Are you a veteran" "t9" [witnessPat10] (by decide)).2
    witnessPat10 (by rfl)

/-- Every answer the AI phase produces carries the AI source tag. -/
theorem aiAnswerFor_source {askAI : Oracle} {profile : Profile} {q : Question}
    {a : MappedAnswer} (h : aiAnswerFor askAI profile q = some a) : a.source = .AI := by
  unfold aiAnswerFor at h
  cases ha : askAI (buildAIRequest q profile) with
  | none =>
    rw [ha] at h
    dsimp only at h
    cases h
  | some resp =>
    rw [ha] at h
    try dsimp only at h
    by_cases he : resp.answer = ""
    · rw [if_pos he] at h
      cases h
    · rw [if_neg he] at h
      try dsimp only at h
      split at h
      · next opts _ =>
        by_cases hl : opts.length > 0
        · rw [if_pos hl] at h
          split at h
          · injection h with h
            subst h
            rfl
          · split at h
            · injection h with h
              subst h
              rfl
            · cases h
        · rw [if_neg hl] at h
          injection h with h
          subst h
          rfl
      · injection h with h
        subst h
        rfl

/-- A gender question with a small option list, for C2. -/
def cexQ2 : Question :=
  { questionText := "Gender", fieldType := "dropdown_custom",
    options := some ["Male", "Female"], required := false, selector := "#g" }

/-- An oracle that answers the gender question, for C2. -/
def cexOracle2 : Oracle := fun req =>
  if req.question = "Gender" then
    some { answer := "Male", confidence := mkRat 9 10 }
  else none

/-- C2 counterexample: with a profile lacking every EEO value, the gender
question is not dropped when tiers 1 through 3 fail — processQuestions
dispatches it to the AI oracle and emits the oracle's answer with source
AI, and the learning step even records it under the eeo.gender intent. -/
theorem claim_C2_counterexample :
    (processQuestions cexOracle2 "t0" (fun _ => "p0") [cexQ2]
        (some emptyProfile) []).toOption.map
      (fun r => r.1.map (fun a => (a.questionText, a.answer, a.source))) =
      some [("Gender", "Male", Source.AI)] ∧
    (processQuestions cexOracle2 "t0" (fun _ => "p0") [cexQ2]
        (some emptyProfile) []).toOption.map
      (fun r => r.2.map (fun p => p.intent)) = some ["eeo.gender"] ∧
    detectIntent "Gender" "Male" emptyProfile = some "eeo.gender" := by
  exact ⟨rfl, rfl, rfl⟩

/-- C2 (amended): EEO questions resolved by tiers 1 through 3 never carry
the AI tag (tier results are canonical, learned or fuzzy), but when those
tiers fail the question is not dropped: it is dispatched to the AI oracle
like any other unmapped question, and a validated oracle answer is
emitted with source AI. -/
theorem claim_C2_amended (q : Question) (profile : Profile) (store store₂ : Store)
    (now : String) (ids : Nat → String) (askAI : Oracle) (a : MappedAnswer)
    (hmap : tryMapping q profile store now = (none, store₂))
    (hai : aiAnswerFor askAI profile q = some a) :
    processQuestions askAI now ids [q] (some profile) store =
      .ok ([a], processLearn profile now ids [q] [a] store₂) ∧
    a.source = .AI := by
  refine ⟨?_, aiAnswerFor_source hai⟩
  simp only [processQuestions, phase1, hmap]
  simp [requestAIAnswers, hai]

/-- The answer record the oracle produces in the C2 witness scenario. -/
def cexA2 : MappedAnswer :=
  { selector := "#g", questionText := "Gender", answer := "Male",
    source := .AI, confidence := mkRat 9 10, required := false,
    fieldType := "dropdown_custom", options := some ["Male", "Female"],
    canonicalKey := none, fileName := none, isNewIntent := false,
    suggestedIntentName := none }

/-- Witness for C2 (amended): the concrete gender scenario, where all
three synchronous tiers fail against the empty profile and the oracle's
answer comes back tagged AI. -/
theorem claim_C2_amended_witness :
    processQuestions cexOracle2 "t0" (fun _ => "p0") [cexQ2]
        (some emptyProfile) [] =
      .ok ([cexA2],
        processLearn emptyProfile "t0" (fun _ => "p0") [cexQ2] [cexA2] []) ∧
    cexA2.source = .AI :=
  claim_C2_amended cexQ2 emptyProfile [] [] "t0" (fun _ => "p0") cexOracle2 cexA2
    (by rfl) (by rfl)

/-- The variant-accumulation fold only appends, so the starting variants
survive. -/
theorem foldl_addVar_sub (vs : List String) (acc : List String) :
    acc ⊆ vs.foldl (fun acc v => if acc.contains v then acc else acc ++ [v]) acc := by
  induction vs generalizing acc with
  | nil => exact fun a ha => ha
  | cons v rest ih =>
    rw [List.foldl_cons]
    refine List.Subset.trans ?_ (ih _)
    by_cases hc : acc.contains v = true
    · rw [if_pos hc]
      exact List.Subset.refl _
    · rw [if_neg hc]
      exact List.subset_append_left _ _

/-- The variant-accumulation fold preserves duplicate-freedom: it only
appends variants that are not already present. -/
theorem foldl_addVar_nodup (vs : List String) (acc : List String) (h : acc.Nodup) :
    (vs.foldl (fun acc v => if acc.contains v then acc else acc ++ [v]) acc).Nodup := by
  induction vs generalizing acc with
  | nil => simpa
  | cons v rest ih =>
    rw [List.foldl_cons]
    apply ih
    by_cases hc : acc.contains v = true
    · rwa [if_pos hc]
    · rw [if_neg hc]
      have hv : v ∉ acc := by simpa using hc
      simp [List.nodup_append, h, hv]

/-- In-place mapping merge preserves duplicate-free variant lists. -/
theorem mergeOneMapping_nodup {nm : AnswerMapping} {ems ems' : List AnswerMapping}
    (he : ∀ m ∈ ems, m.variants.Nodup) (h : mergeOneMapping nm ems = some ems') :
    ∀ m' ∈ ems', m'.variants.Nodup := by
  induction ems generalizing ems' with
  | nil => cases h
  | cons m rest ih =>
    unfold mergeOneMapping at h
    split at h
    · injection h with h
      subst h
      intro m' hm'
      rcases List.mem_cons.mp hm' with rfl | hmem
      · exact foldl_addVar_nodup nm.variants m.variants (he m (List.mem_cons_self _ _))
      · exact he _ (List.mem_cons_of_mem _ hmem)
    · cases hrec : mergeOneMapping nm rest with
      | none =>
        rw [hrec] at h
        cases h
      | some r =>
        rw [hrec] at h
        injection h with h
        subst h
        intro m' hm'
        rcases List.mem_cons.mp hm' with rfl | hmem
        · exact he _ (List.mem_cons_self _ _)
        · exact ih (fun x hx => he x (List.mem_cons_of_mem _ hx)) hrec _ hmem

/-- In-place mapping merge never loses a mapping or a variant. -/
theorem mergeOneMapping_grow {nm : AnswerMapping} {ems ems' : List AnswerMapping}
    (h : mergeOneMapping nm ems = some ems') :
    ∀ m ∈ ems, ∃ m' ∈ ems',
      m'.canonicalValue = m.canonicalValue ∧ m.variants ⊆ m'.variants := by
  induction ems generalizing ems' with
  | nil => cases h
  | cons m rest ih =>
    unfold mergeOneMapping at h
    split at h
    · injection h with h
      subst h
      intro x hx
      rcases List.mem_cons.mp hx with rfl | hmem
      · exact ⟨addVariants x nm.variants, List.mem_cons_self _ _, rfl,
          foldl_addVar_sub nm.variants x.variants⟩
      · exact ⟨x, List.mem_cons_of_mem _ hmem, rfl, List.Subset.refl _⟩
    · cases hrec : mergeOneMapping nm rest with
      | none =>
        rw [hrec] at h
        cases h
      | some r =>
        rw [hrec] at h
        injection h with h
        subst h
        intro x hx
        rcases List.mem_cons.mp hx with rfl | hmem
        · exact ⟨x, List.mem_cons_self _ _, rfl, List.Subset.refl _⟩
        · obtain ⟨m', hm', hcv, hsub⟩ := ih hrec x hmem
          exact ⟨m', List.mem_cons_of_mem _ hm', hcv, hsub⟩

/-- The mapping merge loop preserves duplicate-free variant lists. -/
theorem mergeMappings_nodup {ems nms : List AnswerMapping}
    (he : ∀ m ∈ ems, m.variants.Nodup) (hn : ∀ m ∈ nms, m.variants.Nodup) :
    ∀ m ∈ mergeMappings ems nms, m.variants.Nodup := by
  induction nms generalizing ems with
  | nil => exact he
  | cons nm rest ih =>
    have hstep : ∀ m ∈ mergeMappingsStep ems nm, m.variants.Nodup := by
      unfold mergeMappingsStep
      cases hmo : mergeOneMapping nm ems with
      | some ems' => exact mergeOneMapping_nodup he hmo
      | none =>
        intro m hm
        rcases List.mem_append.mp hm with hm | hm
        · exact he m hm
        · rw [List.mem_singleton.mp hm]
          exact hn nm (List.mem_cons_self _ _)
    exact ih hstep (fun m hm => hn m (List.mem_cons_of_mem _ hm))

/-- The mapping merge loop never loses a mapping or a variant. -/
theorem mergeMappings_grow (ems nms : List AnswerMapping) :
    ∀ m ∈ ems, ∃ m' ∈ mergeMappings ems nms,
      m'.canonicalValue = m.canonicalValue ∧ m.variants ⊆ m'.variants := by
  induction nms generalizing ems with
  | nil => exact fun m hm => ⟨m, hm, rfl, List.Subset.refl _⟩
  | cons nm rest ih =>
    intro m hm
    have hstep : ∃ m' ∈ mergeMappingsStep ems nm,
        m'.canonicalValue = m.canonicalValue ∧ m.variants ⊆ m'.variants := by
      unfold mergeMappingsStep
      cases hmo : mergeOneMapping nm ems with
      | some ems' => exact mergeOneMapping_grow hmo m hm
      | none => exact ⟨m, List.mem_append_left _ hm, rfl, List.Subset.refl _⟩
    obtain ⟨m', hm', hcv, hsub⟩ := hstep
    obtain ⟨m'', hm'', hcv2, hsub2⟩ := ih (mergeMappingsStep ems nm) m' hm'
    exact ⟨m'', hm'', hcv2.trans hcv, hsub.trans hsub2⟩

/-- The in-place pattern merge touches only answerMappings, lastUsed and
the sync flag. -/
theorem mergePattern_fields (p : LearnedPattern) (np : NewPattern) (now : String) :
    (mergePattern p np now).id = p.id ∧ (mergePattern p np now).intent = p.intent ∧
    (mergePattern p np now).questionPattern = p.questionPattern ∧
    (mergePattern p np now).usageCount = p.usageCount := by
  unfold mergePattern
  cases np.answerMappings <;> cases p.answerMappings <;> simp

/-- The in-place pattern merge preserves duplicate matching. -/
theorem mergePattern_pair (np' : NewPattern) (p : LearnedPattern) (np : NewPattern)
    (now : String) : isPairMatch np' (mergePattern p np now) = isPairMatch np' p := by
  obtain ⟨-, hi, hq, -⟩ := mergePattern_fields p np now
  unfold isPairMatch
  rw [hi, hq]

/-- Characterization of the merged answer mappings. -/
theorem mergePattern_ams (p : LearnedPattern) (np : NewPattern) (now : String) :
    ((np.answerMappings = none ∨ p.answerMappings = none) →
      (mergePattern p np now).answerMappings = p.answerMappings) ∧
    (∀ nms ems, np.answerMappings = some nms → p.answerMappings = some ems →
      (mergePattern p np now).answerMappings = some (mergeMappings ems nms)) := by
  unfold mergePattern
  cases hna : np.answerMappings <;> cases hpa : p.answerMappings <;> simp [hna, hpa]

/-- The in-place pattern merge preserves duplicate-free variant lists. -/
theorem mergePattern_nodup (p : LearnedPattern) (np : NewPattern) (now : String)
    (hp : ∀ ms, p.answerMappings = some ms → ∀ m ∈ ms, m.variants.Nodup)
    (hn : ∀ ms, np.answerMappings = some ms → ∀ m ∈ ms, m.variants.Nodup) :
    ∀ ms, (mergePattern p np now).answerMappings = some ms →
      ∀ m ∈ ms, m.variants.Nodup := by
  intro ms hms
  cases hna : np.answerMappings with
  | none =>
    rw [(mergePattern_ams p np now).1 (Or.inl hna)] at hms
    exact hp ms hms
  | some nms =>
    cases hpa : p.answerMappings with
    | none =>
      rw [(mergePattern_ams p np now).1 (Or.inr hpa)] at hms
      exact hp ms hms
    | some ems =>
      rw [(mergePattern_ams p np now).2 nms ems hna hpa] at hms
      injection hms with hms
      subst hms
      exact mergeMappings_nodup (hp ems hpa) (hn nms hna)

/-- The in-place pattern merge never removes a mapping or a variant. -/
theorem mergePattern_grow (p : LearnedPattern) (np : NewPattern) (now : String) :
    ∀ m ∈ p.answerMappings.getD [],
      ∃ m' ∈ (mergePattern p np now).answerMappings.getD [],
        m'.canonicalValue = m.canonicalValue ∧ m.variants ⊆ m'.variants := by
  intro m hm
  cases hna : np.answerMappings with
  | none =>
    rw [(mergePattern_ams p np now).1 (Or.inl hna)]
    exact ⟨m, hm, rfl, List.Subset.refl _⟩
  | some nms =>
    cases hpa : p.answerMappings with
    | none =>
      rw [hpa] at hm
      simp at hm
    | some ems =>
      rw [(mergePattern_ams p np now).2 nms ems hna hpa]
      rw [hpa] at hm
      simp only [Option.getD_some] at hm ⊢
      exact mergeMappings_grow ems nms m hm

/-- addPattern on the empty store appends the fresh record. -/
theorem addPattern_nil (newId now : String) (np : NewPattern) :
    addPattern newId now np [] = [mkPattern newId now np] := rfl

/-- addPattern merges in place at a matching head. -/
theorem addPattern_cons_pair {np : NewPattern} {q : LearnedPattern}
    (newId now : String) (rest : Store) (hq : isPairMatch np q = true) :
    addPattern newId now np (q :: rest) = mergePattern q np now :: rest := by
  unfold addPattern mergeFirst
  rw [if_pos hq]

/-- addPattern skips a non-matching head. -/
theorem addPattern_cons_nopair {np : NewPattern} {q : LearnedPattern}
    (newId now : String) (rest : Store) (hq : isPairMatch np q = false) :
    addPattern newId now np (q :: rest) = q :: addPattern newId now np rest := by
  unfold addPattern
  have hm : mergeFirst np now (q :: rest) =
      (mergeFirst np now rest).map (fun r => q :: r) := by
    simp only [mergeFirst]
    rw [if_neg (by simp [hq])]
  rw [hm]
  cases h : mergeFirst np now rest <;> simp [h]

/-- Duplicate matching only depends on the intent and the lowercased
question pattern. -/
theorem isPairMatch_congr {np₁ np₂ : NewPattern} (hint : np₁.intent = np₂.intent)
    (hqp : jsLower np₁.questionPattern = jsLower np₂.questionPattern)
    (p : LearnedPattern) : isPairMatch np₂ p = isPairMatch np₁ p := by
  unfold isPairMatch
  rw [hint, hqp]

/-- A freshly created record matches its own pair. -/
theorem isPairMatch_mk (np : NewPattern) (newId now : String) :
    isPairMatch np (mkPattern newId now np) = true := by
  simp [isPairMatch, mkPattern]

/-- Two addPattern calls for the same (intent, case-insensitive
questionPattern) pair and the same answer mappings, on a store with at
most one pattern for that pair and duplicate-free variant lists, leave
exactly one pattern for the pair, with duplicate-free variants. -/
theorem addPattern_twice_aux (np₁ np₂ : NewPattern) (id₁ id₂ t₁ t₂ : String)
    (hint : np₁.intent = np₂.intent)
    (hqp : jsLower np₁.questionPattern = jsLower np₂.questionPattern)
    (hams : np₁.answerMappings = np₂.answerMappings)
    (hnp : ∀ ms, np₁.answerMappings = some ms → ∀ m ∈ ms, m.variants.Nodup) :
    ∀ store : Store, store.countP (isPairMatch np₁) ≤ 1 →
    (∀ p ∈ store, ∀ ms, p.answerMappings = some ms → ∀ m ∈ ms, m.variants.Nodup) →
    (addPattern id₂ t₂ np₂ (addPattern id₁ t₁ np₁ store)).countP (isPairMatch np₁) = 1 ∧
    ∀ p ∈ addPattern id₂ t₂ np₂ (addPattern id₁ t₁ np₁ store),
      isPairMatch np₁ p = true →
      ∀ ms, p.answerMappings = some ms → ∀ m ∈ ms, m.variants.Nodup := by
  have hnp₂ : ∀ ms, np₂.answerMappings = some ms → ∀ m ∈ ms, m.variants.Nodup :=
    fun ms hms => hnp ms (by rw [hams]; exact hms)
  intro store
  induction store with
  | nil =>
    intro _ _
    rw [addPattern_nil]
    rw [addPattern_cons_pair _ _ _
      (by rw [isPairMatch_congr hint hqp]; exact isPairMatch_mk np₁ id₁ t₁)]
    constructor
    · simp [List.countP_cons, mergePattern_pair, isPairMatch_mk]
    · intro p hp hpair ms hms
      rw [List.mem_singleton.mp hp] at hms
      refine mergePattern_nodup _ _ _ ?_ hnp₂ ms hms
      intro ms' hms'
      exact hnp ms' hms'
  | cons q rest ih =>
    intro hcount hstore
    by_cases hq : isPairMatch np₁ q = true
    · have hcrest : rest.countP (isPairMatch np₁) = 0 := by
        rw [List.countP_cons] at hcount
        simp only [hq, if_pos] at hcount
        omega
      rw [addPattern_cons_pair _ _ _ hq]
      have hq2 : isPairMatch np₂ (mergePattern q np₁ t₁) = true := by
        rw [isPairMatch_congr hint hqp, mergePattern_pair]
        exact hq
      rw [addPattern_cons_pair _ _ _ hq2]
      have hpairm :
          isPairMatch np₁ (mergePattern (mergePattern q np₁ t₁) np₂ t₂) = true := by
        rw [mergePattern_pair, mergePattern_pair]
        exact hq
      constructor
      · simp [List.countP_cons, hpairm, hcrest]
      · intro p hp hpair ms hms
        rcases List.mem_cons.mp hp with rfl | hmem
        · exact mergePattern_nodup _ _ _
            (mergePattern_nodup _ _ _ (hstore q (List.mem_cons_self _ _)) hnp)
            hnp₂ ms hms
        · exact absurd hpair (by simpa using List.countP_eq_zero.mp hcrest p hmem)
    · have hq' : isPairMatch np₁ q = false := by
        revert hq
        cases isPairMatch np₁ q <;> simp
      rw [addPattern_cons_nopair _ _ _ hq']
      have hq2 : isPairMatch np₂ q = false := by
        rw [isPairMatch_congr hint hqp]
        exact hq'
      rw [addPattern_cons_nopair _ _ _ hq2]
      have hcrest : rest.countP (isPairMatch np₁) ≤ 1 := by
        rw [List.countP_cons] at hcount
        omega
      obtain ⟨ihc, ihn⟩ := ih hcrest (fun p hp => hstore p (List.mem_cons_of_mem _ hp))
      constructor
      · simp [List.countP_cons, hq', ihc]
      · intro p hp hpair ms hms
        rcases List.mem_cons.mp hp with rfl | hmem
        · rw [hpair] at hq'
          cases hq'
        · exact ihn p hmem hpair ms hms

/-- addPattern never deletes a stored pattern and never removes a variant:
every original position keeps its id, intent, question pattern and usage
count, and its answer mappings only grow. -/
theorem addPattern_preserves (np : NewPattern) (newId now : String) :
    ∀ (store : Store) (i : Nat) (hi : i < store.length),
      ∃ hj : i < (addPattern newId now np store).length,
        ((addPattern newId now np store).get ⟨i, hj⟩).id = (store.get ⟨i, hi⟩).id ∧
        ((addPattern newId now np store).get ⟨i, hj⟩).intent =
          (store.get ⟨i, hi⟩).intent ∧
        ((addPattern newId now np store).get ⟨i, hj⟩).questionPattern =
          (store.get ⟨i, hi⟩).questionPattern ∧
        ((addPattern newId now np store).get ⟨i, hj⟩).usageCount =
          (store.get ⟨i, hi⟩).usageCount ∧
        ∀ m ∈ (store.get ⟨i, hi⟩).answerMappings.getD [],
          ∃ m' ∈ ((addPattern newId now np store).get ⟨i, hj⟩).answerMappings.getD [],
            m'.canonicalValue = m.canonicalValue ∧ m.variants ⊆ m'.variants := by
  intro store
  induction store with
  | nil =>
    intro i hi
    exact absurd hi (Nat.not_lt_zero i)
  | cons q rest ih =>
    intro i hi
    by_cases hq : isPairMatch np q = true
    · rw [addPattern_cons_pair newId now rest hq]
      cases i with
      | zero =>
        obtain ⟨h1, h2, h3, h4⟩ := mergePattern_fields q np now
        exact ⟨by simp, h1, h2, h3, h4, mergePattern_grow q np now⟩
      | succ i =>
        refine ⟨by simpa using hi, rfl, rfl, rfl, rfl, ?_⟩
        exact fun m hm => ⟨m, hm, rfl, List.Subset.refl _⟩
    · have hq' : isPairMatch np q = false := by
        revert hq
        cases isPairMatch np q <;> simp
      rw [addPattern_cons_nopair newId now rest hq']
      cases i with
      | zero =>
        refine ⟨by simp, rfl, rfl, rfl, rfl, ?_⟩
        exact fun m hm => ⟨m, hm, rfl, List.Subset.refl _⟩
      | succ i =>
        obtain ⟨hj, h1, h2, h3, h4, h5⟩ := ih i (by simpa using hi)
        exact ⟨by simpa using hj, h1, h2, h3, h4, h5⟩

/-- A pattern and a store exhibiting a pre-existing duplicate pair, for
the C4 counterexample. -/
def cexPat4 : LearnedPattern :=
  { id := "dup", questionPattern := "gender", intent := "eeo.gender",
    canonicalKey := "eeo.gender", answerMappings := none,
    fieldType := "dropdown_custom", confidence := mkRat 8 10, usageCount := 0,
    lastUsed := "t", createdAt := "t", source := "AI" }

/-- The observation recorded twice in the C4 scenarios. -/
def cexNp4 : NewPattern :=
  { questionPattern := "gender", intent := "eeo.gender",
    canonicalKey := "eeo.gender",
    answerMappings := some [{ canonicalValue := "Male", variants := ["Male"],
                              contextOptions := some [] }],
    fieldType := "dropdown_custom", confidence := mkRat 8 10, source := "AI" }

/-- C4 counterexample: the claim quantifies over every pattern-store
state, but on a store that already holds two patterns for the
(intent, questionPattern) pair, two identical addPattern calls merge into
the first and leave two patterns for the pair, not exactly one. -/
theorem claim_C4_counterexample :
    (addPattern "id2" "t2" cexNp4
        (addPattern "id1" "t1" cexNp4 [cexPat4, cexPat4])).countP
      (isPairMatch cexNp4) = 2 := by decide

/-- C4 (amended): on a store with at most one pattern for the
(intent, questionPattern) pair and duplicate-free variant lists (the
invariants addPattern itself maintains), two addPattern calls with the
same intent, case-insensitively equal question patterns and the same
duplicate-free answer mappings leave exactly one pattern for the pair,
with no duplicated variant; and unconditionally addPattern never deletes
a stored pattern and never removes a variant from an existing answer
mapping. -/
theorem claim_C4_amended :
    (∀ (store : Store) (np₁ np₂ : NewPattern) (id₁ id₂ t₁ t₂ : String),
      np₁.intent = np₂.intent →
      jsLower np₁.questionPattern = jsLower np₂.questionPattern →
      np₁.answerMappings = np₂.answerMappings →
      store.countP (isPairMatch np₁) ≤ 1 →
      (∀ p ∈ store, ∀ ms, p.answerMappings = some ms →
        ∀ m ∈ ms, m.variants.Nodup) →
      (∀ ms, np₁.answerMappings = some ms → ∀ m ∈ ms, m.variants.Nodup) →
      (addPattern id₂ t₂ np₂ (addPattern id₁ t₁ np₁ store)).countP
          (isPairMatch np₁) = 1 ∧
      ∀ p ∈ addPattern id₂ t₂ np₂ (addPattern id₁ t₁ np₁ store),
        isPairMatch np₁ p = true →
        ∀ ms, p.answerMappings = some ms → ∀ m ∈ ms, m.variants.Nodup) ∧
    (∀ (store : Store) (np : NewPattern) (newId now : String) (i : Nat)
      (hi : i < store.length),
      ∃ hj : i < (addPattern newId now np store).length,
        ((addPattern newId now np store).get ⟨i, hj⟩).id = (store.get ⟨i, hi⟩).id ∧
        ((addPattern newId now np store).get ⟨i, hj⟩).intent =
          (store.get ⟨i, hi⟩).intent ∧
        ((addPattern newId now np store).get ⟨i, hj⟩).questionPattern =
          (store.get ⟨i, hi⟩).questionPattern ∧
        ((addPattern newId now np store).get ⟨i, hj⟩).usageCount =
          (store.get ⟨i, hi⟩).usageCount ∧
        ∀ m ∈ (store.get ⟨i, hi⟩).answerMappings.getD [],
          ∃ m' ∈ ((addPattern newId now np store).get ⟨i, hj⟩).answerMappings.getD [],
            m'.canonicalValue = m.canonicalValue ∧ m.variants ⊆ m'.variants) :=
  ⟨fun store np₁ np₂ id₁ id₂ t₁ t₂ hint hqp hams hcount hstore hnp =>
    addPattern_twice_aux np₁ np₂ id₁ id₂ t₁ t₂ hint hqp hams hnp store hcount hstore,
   fun store np newId now i hi => addPattern_preserves np newId now store i hi⟩

/-- Witness for C4 (amended): recording the same gender observation twice
on the empty store leaves exactly one pattern for the pair. -/
theorem claim_C4_amended_witness :
    (addPattern "id2" "t2" cexNp4 (addPattern "id1" "t1" cexNp4 [])).countP
      (isPairMatch cexNp4) = 1 :=
  (claim_C4_amended.1 [] cexNp4 cexNp4 "id1" "id2" "t1" "t2" rfl rfl rfl
    (by decide) (fun p hp => absurd hp (List.not_mem_nil p))
    (fun ms hms => by
      injection hms with hh
      subst hh
      decide)).1

end Autofill
